import Mathlib

set_option maxRecDepth 100000

/-!
Verification of the dynamic query-builder subsystem: a shallow embedding of
the schema-introspection endpoint, the `/query`, `/sql` and `/count` request
handlers of the server's query-builder router, and the client-side cascade
path of `CustomQuery.tsx`, with theorems settling the frozen claims about
primary-key protection, cascade behaviour, error precedence and parameter
binding.

Conventions of the embedding:
- JavaScript strings are `String`; a JS `undefined` slot is `Option`.
- A JS object is an association list `List (String × String)` in insertion
  order; `jsFromEntries` reproduces `Object.fromEntries` overwrite semantics.
- `String.split(sep)` is `jsSplit`, `includes` is `jsIncludes`, both written
  as structural recursions over `List Char` so the kernel can evaluate them.
- Each handler is a pure function from the request body (plus the data the
  handler reads from the database, e.g. the primary-key columns fetched from
  `information_schema`) to an outcome: an execution plan handed to the
  storage engine, or an HTTP rejection.
-/

/-! ## JavaScript string and object primitives -/

/-- Single-quote character as a one-character string. -/
def sqStr : String := String.singleton (Char.ofNat 39)

/-- Backtick character as a one-character string. -/
def btStr : String := String.singleton (Char.ofNat 96)

/-- Whether the first list is an initial segment of the second. -/
def leadsWith : List Char → List Char → Bool
  | [], _ => true
  | _ :: _, [] => false
  | a :: as, b :: bs => a == b && leadsWith as bs

/-- Whether the first list occurs as a contiguous sublist of the second. -/
def hasSub (needle : List Char) : List Char → Bool
  | [] => leadsWith needle []
  | c :: rest => leadsWith needle (c :: rest) || hasSub needle rest

/-- JS `hay.includes(needle)`. -/
def jsIncludes (hay needle : String) : Bool := hasSub needle.data hay.data

/-- Core of `jsSplit`: split a character list on a separator character. -/
def jsSplitList (sep : Char) : List Char → List (List Char)
  | [] => [[]]
  | c :: rest =>
    let r := jsSplitList sep rest
    if c == sep then [] :: r
    else
      match r with
      | [] => [[c]]
      | h :: t => (c :: h) :: t

/-- JS `s.split(sep)` for a one-character separator; `"".split(sep)` is `[""]`. -/
def jsSplit (sep : Char) (s : String) : List String :=
  (jsSplitList sep s.data).map String.mk

/-- Deduplication keeping first occurrences, as `[...new Set(l)]` does. -/
def jsSetDedupAux (seen : List String) : List String → List String
  | [] => []
  | x :: xs => if seen.contains x then jsSetDedupAux seen xs else x :: jsSetDedupAux (x :: seen) xs

/-- JS `[...new Set(l)]`. -/
def jsSetDedup (l : List String) : List String := jsSetDedupAux [] l

/-- One step of `Object.fromEntries`: later values overwrite, keys keep their
first position. -/
def jsObjInsert (l : List (String × String)) (kv : String × String) : List (String × String) :=
  if l.any (fun p => p.1 == kv.1) then l.map (fun p => if p.1 == kv.1 then (p.1, kv.2) else p)
  else l ++ [kv]

/-- JS `Object.fromEntries` over a list of key-value pairs. -/
def jsFromEntries (l : List (String × String)) : List (String × String) :=
  l.foldl jsObjInsert []

example : jsSplit ',' "a,b" = ["a", "b"] := by decide
example : jsSplit ',' "" = [""] := by decide
example : jsIncludes "xauto_incrementy" "auto_increment" = true := by decide
example : jsIncludes "auto_inc" "auto_increment" = false := by decide

/-! ## Data model

`TableSchema`, `ColumnInfo` and `ForeignKeyEdge` mirror the objects assembled
by `router.get('/schema')`; the raw row types mirror the shape of the two
`information_schema` result sets that endpoint reads. -/

structure ColumnInfo where
  name : String
  type : String
  length : Option String
  nullable : Bool
  defaultValue : Option String
  extra : String
deriving DecidableEq

structure ForeignKeyEdge where
  table : String
  fromColumn : String
  toColumn : String
deriving DecidableEq

structure TableSchema where
  name : String
  columns : List ColumnInfo
  primaryKeys : List String
  relationships : List ForeignKeyEdge
  dependsOn : List String
  isIndependentTable : Bool
  supportsInsert : Bool
deriving DecidableEq

/-- One row of the grouped catalog query: `table_name`, the `GROUP_CONCAT`
string of `column_details`, and the `GROUP_CONCAT` string of `foreign_keys`
(a SQL `NULL` is modelled as `""`, matching the handler's `|| ''` fallback). -/
structure RawTableRow where
  table_name : String
  column_details : String
  foreign_keys : String
deriving DecidableEq

/-- One row of the primary-key catalog query: `TABLE_NAME` and the
`GROUP_CONCAT` string of the `PRIMARY` constraint's column names. -/
structure RawPkRow where
  tableName : String
  primary_keys : String
deriving DecidableEq

/-! ## Schema Introspector: embedding of `router.get('/schema')` -/

/-- Parse one `name:type:len:nullable:default:extra` entry of
`column_details`, as the handler's destructuring `col.split(':')` does
(`len || null` and `def || null` send the empty string to `null`). -/
def parseColumnDetail (s : String) : ColumnInfo :=
  let ps := jsSplit ':' s
  { name := ps.getD 0 "", type := ps.getD 1 "",
    length := if ps.getD 2 "" = "" then none else some (ps.getD 2 ""),
    nullable := ps.getD 3 "" == "YES",
    defaultValue := if ps.getD 4 "" = "" then none else some (ps.getD 4 ""),
    extra := ps.getD 5 "" }

/-- Parse one `refTable:fromCol:toCol` entry of `foreign_keys`. -/
def parseForeignKey (s : String) : ForeignKeyEdge :=
  let ps := jsSplit ':' s
  { table := ps.getD 0 "", fromColumn := ps.getD 1 "", toColumn := ps.getD 2 "" }

/-- Lookup in `pkMap = Object.fromEntries(pkRows.map(...))`: a later row with
the same `TABLE_NAME` overwrites an earlier one, hence `getLast?`. -/
def pkMapLookup (pkRows : List RawPkRow) (n : String) : Option (List String) :=
  ((pkRows.filter (fun r => r.tableName == n)).getLast?).map
    (fun r => jsSplit ',' r.primary_keys)

/-- Column entries of one raw catalog row, after the handler's
`split(',').filter(Boolean).map(parse)`. -/
def rawColumns (t : RawTableRow) : List ColumnInfo :=
  ((jsSplit ',' t.column_details).filter (fun s => !(s == ""))).map parseColumnDetail

/-- Foreign-key edges of one raw catalog row. -/
def rawForeignKeys (t : RawTableRow) : List ForeignKeyEdge :=
  ((jsSplit ',' t.foreign_keys).filter (fun s => !(s == ""))).map parseForeignKey

/-- Names of the parsed columns of one raw catalog row. -/
def rawColumnNames (t : RawTableRow) : List String :=
  (rawColumns t).map (fun c => c.name)

/-- Assembly of one `TableSchema`, exactly as the `schema = tables.map(...)`
body does: `primaryKeys` is `pkMap[t.table_name] || []`, with no validation
against the parsed columns. -/
def buildTableSchema (pkRows : List RawPkRow) (t : RawTableRow) : TableSchema :=
  let fks := rawForeignKeys t
  let dependsOn := jsSetDedup (fks.map (fun fk => fk.table))
  { name := t.table_name, columns := rawColumns t,
    primaryKeys := (pkMapLookup pkRows t.table_name).getD [],
    relationships := fks, dependsOn := dependsOn,
    isIndependentTable := dependsOn.isEmpty, supportsInsert := true }

/-- The `/schema` endpoint: one `TableSchema` per grouped catalog row. -/
def describeSchema (tables : List RawTableRow) (pkRows : List RawPkRow) : List TableSchema :=
  tables.map (buildTableSchema pkRows)

example :
    describeSchema [⟨"Department", "DeptID:int:11:NO::,DeptName:varchar:50:NO::", ""⟩]
      [⟨"Department", "DeptID"⟩] =
    [{ name := "Department",
       columns := [⟨"DeptID", "int", some "11", false, none, ""⟩,
                   ⟨"DeptName", "varchar", some "50", false, none, ""⟩],
       primaryKeys := ["DeptID"], relationships := [], dependsOn := [],
       isIndependentTable := true, supportsInsert := true }] := by decide

/-! ## Query Request Model: the body of `router.post('/query')` -/

structure Condition where
  field : String
  operator : String
  value : String
deriving DecidableEq

structure JoinSpec where
  fromTable : String
  toTable : String
  fromColumn : String
  toColumn : String
  joinType : String
deriving DecidableEq

/-- The destructured request body
`{ operation, table, fields = [], joins = [], conditions = [], updates = {} }`
plus the separately read `data` of the INSERT case; `data = none` models an
absent (`undefined`) field, `some []` an empty object. -/
structure QueryBody where
  operation : String
  table : String
  fields : List String
  joins : List JoinSpec
  conditions : List Condition
  updates : List (String × String)
  data : Option (List (String × String))
deriving DecidableEq

/-- The parameterized statement the handler hands to the storage engine.
Every `wheres` entry is a `(field, operator, boundValue)` triple: the value
is a binding, never interpolated into statement text by this handler. -/
inductive PlanAction where
  | selectRows (fields : List String) (wheres : List (String × String × String))
  | insertRow (payload : List (String × String))
  | updateRows (sets : List (String × String)) (wheres : List (String × String × String))
  | deleteRows (wheres : List (String × String × String))
deriving DecidableEq

structure Plan where
  table : String
  joins : List JoinSpec
  action : PlanAction
deriving DecidableEq

/-- Outcome of the handler before the engine runs: a plan reaching
`await query`, the explicit `res.status(400)` refusal, or a thrown error
that the catch-all turns into a 500 response. -/
inductive QueryOutcome where
  | plan (p : Plan)
  | badRequest (msg : String)
  | serverError (msg : String)
deriving DecidableEq

/-! ## Query Compiler: embedding of `router.post('/query')` -/

/-- Join methods the knex query builder exposes; the handler accepts a join
exactly when `` `${joinType.toLowerCase()}Join` `` is one of them. -/
def knexJoinMethods : List String :=
  ["innerJoin", "leftJoin", "rightJoin", "fullOuterJoin",
   "leftOuterJoin", "rightOuterJoin", "crossJoin"]

def validJoin (j : JoinSpec) : Bool :=
  knexJoinMethods.contains (j.joinType.toLower ++ "Join")

/-- Value binding of one SELECT condition: the `LIKE` operator wraps the
value in `%` wildcards, every other operator binds it unmodified. -/
def selectBind (c : Condition) : String × String × String :=
  (c.field, c.operator, if c.operator == "LIKE" then "%" ++ c.value ++ "%" else c.value)

/-- Value binding of one UPDATE or DELETE condition: always the literal
value, with no wildcard wrapping. -/
def rawBind (c : Condition) : String × String × String :=
  (c.field, c.operator, c.value)

/-- The UPDATE case's `safeUpdates`: the requested updates with every
primary-key column dropped. -/
def safeUpdatesOf (pkCols : List String) (updates : List (String × String)) : List (String × String) :=
  updates.filter (fun cv => !(pkCols.contains cv.1))

/-- The 400 message of the primary-key refusal. -/
def pkRefusalMessage (pkCols : List String) : String :=
  "Refusing to update primary-key column(s) " ++ String.intercalate ", " pkCols ++
    ". Modify non-key columns or use a controlled cascade procedure instead."

/-- The INSERT case's payload: `data || Object.fromEntries(conditions.map(...))`. -/
def insertPayloadOf (b : QueryBody) : List (String × String) :=
  b.data.getD (jsFromEntries (b.conditions.map (fun c => (c.field, c.value))))

/-- The `/query` handler up to the point where the built statement is awaited.
`pkCols` is the result of the `information_schema.key_column_usage` lookup
the UPDATE case performs for the target table. The order of checks is the
source's: missing table, join loop, then the per-operation `switch`, and in
the UPDATE case primary-key stripping and its 400 refusal come before the
empty-updates and empty-conditions checks. -/
def runQueryHandler (pkCols : List String) (b : QueryBody) : QueryOutcome :=
  if b.table = "" then .serverError "Table not specified"
  else
    match b.joins.find? (fun j => !(validJoin j)) with
    | some j => .serverError ("Invalid join type: " ++ j.joinType)
    | none =>
      if b.operation = "SELECT" then
        .plan ⟨b.table, b.joins,
          .selectRows (if b.fields.isEmpty then ["*"] else b.fields)
            (b.conditions.map selectBind)⟩
      else if b.operation = "INSERT" then
        if (insertPayloadOf b).isEmpty then .serverError "No values supplied for INSERT"
        else .plan ⟨b.table, b.joins, .insertRow (insertPayloadOf b)⟩
      else if b.operation = "UPDATE" then
        if (safeUpdatesOf pkCols b.updates).isEmpty then .badRequest (pkRefusalMessage pkCols)
        else if b.updates.isEmpty then .serverError "No column values supplied for UPDATE"
        else if b.conditions.isEmpty then .serverError "Refusing to UPDATE without WHERE clause"
        else .plan ⟨b.table, b.joins,
          .updateRows (safeUpdatesOf pkCols b.updates) (b.conditions.map rawBind)⟩
      else if b.operation = "DELETE" then
        if b.conditions.isEmpty then .serverError "Refusing to DELETE without WHERE clause"
        else .plan ⟨b.table, b.joins, .deleteRows (b.conditions.map rawBind)⟩
      else .serverError ("Unsupported operation: " ++ b.operation)

/-- Update set of a compiled plan (empty for the other actions). -/
def planUpdateSets (p : Plan) : List (String × String) :=
  match p.action with
  | .updateRows s _ => s
  | _ => []

/-- Where-clause bindings of a compiled plan (`none` for an insert). -/
def planWheres (p : Plan) : Option (List (String × String × String)) :=
  match p.action with
  | .selectRows _ w => some w
  | .insertRow _ => none
  | .updateRows _ w => some w
  | .deleteRows w => some w

example :
    runQueryHandler ["EmpID"]
      { operation := "UPDATE", table := "Employee", fields := [], joins := [],
        conditions := [⟨"EmpID", "=", "7"⟩], updates := [("FName", "Ann")], data := none } =
    .plan ⟨"Employee", [], .updateRows [("FName", "Ann")] [("EmpID", "=", "7")]⟩ := by decide

example :
    runQueryHandler ["EmpID"]
      { operation := "UPDATE", table := "Employee", fields := [], joins := [],
        conditions := [⟨"EmpID", "=", "7"⟩], updates := [("EmpID", "70")], data := none } =
    .badRequest (pkRefusalMessage ["EmpID"]) := by decide

/-! ## Count endpoints: embedding of `router.post('/count')` and
`router.get('/count')` -/

/-- A table row as the engine returns it: column name to value. -/
abbrev Row := List (String × String)

/-- A condition of a count request; `value = none` models `undefined`. -/
structure CountCond where
  field : String
  operator : String
  value : Option String
deriving DecidableEq

inductive CountOutcome where
  | ok (count : Nat)
  | badRequest (msg : String)
deriving DecidableEq

/-- The POST handler's validity filter:
`c.field && c.operator && c.value !== undefined`. -/
def validCountCond (c : CountCond) : Bool :=
  !(c.field == "") && !(c.operator == "") && c.value.isSome

/-- The POST `/count` handler: rejects a missing table, rejects a request
with no valid condition, and otherwise counts the rows matching every valid
condition. `matches` abstracts the engine's evaluation of one `where` filter
on one row. -/
def postCountHandler (rowMatch : Row → CountCond → Bool) (rows : List Row)
    (table : String) (conds : List CountCond) : CountOutcome :=
  if table = "" then .badRequest "Table not specified"
  else
    let validConds := conds.filter validCountCond
    if validConds.isEmpty then .badRequest "No valid conditions supplied"
    else .ok ((rows.filter (fun r => validConds.all (rowMatch r))).length)

/-- The GET `/count` handler: same table check, but the conditions are
applied with no validity or non-emptiness check of any kind. -/
def getCountHandler (rowMatch : Row → CountCond → Bool) (rows : List Row)
    (table : String) (conds : List CountCond) : CountOutcome :=
  if table = "" then .badRequest "Table not specified"
  else .ok ((rows.filter (fun r => conds.all (rowMatch r))).length)

/-! ## Query Executor: the `await query` step of `/query` with the
foreign-key catch of the DELETE path -/

/-- An error object thrown by the mysql driver. -/
structure EngineError where
  code : String
  message : String
deriving DecidableEq

/-- The HTTP response assembled for a write request. -/
structure HttpResponse where
  status : Nat
  error : String
  detail : Option String
  rowsAffected : Option Nat
deriving DecidableEq

/-- The handler's catch around `await query`: the two MySQL
row-is-referenced codes become the structured 409 conflict carrying the
engine message as `detail`; any other error is rethrown and the outer catch
returns it as a 500. -/
def writeErrorResponse (e : EngineError) : HttpResponse :=
  if e.code == "ER_ROW_IS_REFERENCED_2" || e.code == "ER_ROW_IS_REFERENCED" then
    { status := 409, error := "Delete blocked by foreign-key constraint",
      detail := some e.message, rowsAffected := none }
  else
    { status := 500, error := e.message, detail := none, rowsAffected := none }

/-- Modelled storage engine (external collaborator, InnoDB `RESTRICT`
semantics): a DELETE whose matching rows include one still referenced by a
child row fails with `ER_ROW_IS_REFERENCED_2` and changes nothing;
otherwise the matching rows are removed and counted. `referenced r` says a
foreign key of some other table still points at row `r`, and `fkMessage` is
the engine's constraint-violation message naming the blocking reference. -/
def engineDelete (referenced : Row → Bool) (fkMessage : String) (rows : List Row)
    (cond : Row → Bool) : Except EngineError (List Row × Nat) :=
  if (rows.filter cond).any referenced then
    .error { code := "ER_ROW_IS_REFERENCED_2", message := fkMessage }
  else
    .ok (rows.filter (fun r => !(cond r)), (rows.filter cond).length)

/-- A DELETE request run to completion: the engine outcome paired with the
HTTP response the handler produces, and the table state it leaves behind. -/
def deleteRequestRun (referenced : Row → Bool) (fkMessage : String) (rows : List Row)
    (cond : Row → Bool) : List Row × HttpResponse :=
  match engineDelete referenced fkMessage rows cond with
  | .ok (rows2, n) =>
      (rows2, { status := 200, error := "", detail := none, rowsAffected := some n })
  | .error e => (rows, writeErrorResponse e)

/-! ## Client cascade path: embedding of `runQuery` / `buildQuery` in
`CustomQuery.tsx` -/

/-- One entry the cascade loop pushes onto `referencingTables`. -/
structure RefTarget where
  tableName : String
  fromColumn : String
  toColumn : String
deriving DecidableEq

/-- One primary-key change of the cascade: the column, the original value
(`originalValues[field]`) and the requested new value. -/
structure PkChange where
  field : String
  oldValue : String
  newValue : String
deriving DecidableEq

/-- The cascade path's scan for tables holding a foreign key into the edited
primary-key columns (lines 677-692): every table of the schema EXCEPT the
selected table itself (`if (table.name === selectedTable) continue`), keeping
each relationship that points at the selected table on an edited column. -/
def referencingTablesFor (schema : List TableSchema) (selectedTable : String)
    (pkFields : List String) : List RefTarget :=
  (schema.map (fun t =>
    if t.name == selectedTable then []
    else (t.relationships.filter
        (fun rel => rel.table == selectedTable && pkFields.contains rel.toColumn)).map
      (fun rel => RefTarget.mk t.name rel.fromColumn rel.toColumn))).flatten

/-- One `UPDATE referencing-table` statement of the cascade script, with the
new and old values interpolated into the text between single quotes exactly
as the template literal does (whitespace normalized). -/
def refUpdateStmtSql (r : RefTarget) (pc : PkChange) : String :=
  "UPDATE " ++ btStr ++ r.tableName ++ btStr ++ " SET " ++ btStr ++ r.fromColumn ++ btStr ++
    " = " ++ sqStr ++ pc.newValue ++ sqStr ++ " WHERE " ++ btStr ++ r.fromColumn ++ btStr ++
    " = " ++ sqStr ++ pc.oldValue ++ sqStr ++ "; "

/-- The full multi-statement cascade script of lines 700-729: disable
foreign-key checks, start a transaction, rewrite each referencing table,
update the selected table, commit, re-enable checks — all values spliced
into the statement text as quoted literals. -/
def cascadeSql (selectedTable : String) (refs : List RefTarget)
    (pkChanges : List PkChange) (conds : List Condition) : String :=
  let refStmts := String.join (refs.map (fun r =>
    String.join (pkChanges.map (fun pc =>
      if r.toColumn == pc.field then refUpdateStmtSql r pc else ""))))
  let setClause := String.intercalate ", " (pkChanges.map (fun pc =>
    btStr ++ pc.field ++ btStr ++ " = " ++ sqStr ++ pc.newValue ++ sqStr))
  let whereClause := String.intercalate " AND " (conds.map (fun c =>
    btStr ++ c.field ++ btStr ++ " " ++ c.operator ++ " " ++ sqStr ++ c.value ++ sqStr))
  "SET foreign_key_checks = 0; START TRANSACTION; " ++ refStmts ++
    "UPDATE " ++ btStr ++ selectedTable ++ btStr ++ " SET " ++ setClause ++
    " WHERE " ++ whereClause ++ "; COMMIT; SET foreign_key_checks = 1;"

/-- `buildQuery`'s condition filter:
`c.field && c.operator && c.value !== undefined && c.value !== ''`. -/
def clientValidConditions (conds : List Condition) : List Condition :=
  conds.filter (fun c => !(c.field == "") && !(c.operator == "") && !(c.value == ""))

/-- `buildQuery`'s UPDATE payload: drop primary-key columns and unchanged
values (`!isKey(f) && originalValues[f] !== v`). -/
def clientChangedUpdates (primaryKeys : List String)
    (updateValues originalValues : List (String × String)) : List (String × String) :=
  updateValues.filter (fun fv =>
    !(primaryKeys.contains fv.1) && !(originalValues.lookup fv.1 == some fv.2))

/-- The body `buildQuery` posts to `/query` for an UPDATE. -/
def buildClientUpdateBody (schema : List TableSchema) (selectedTable : String)
    (updateValues originalValues : List (String × String)) (conds : List Condition) : QueryBody :=
  let primaryKeys := ((schema.find? (fun s => s.name == selectedTable)).map
    (fun s => s.primaryKeys)).getD []
  { operation := "UPDATE", table := selectedTable, fields := [], joins := [],
    conditions := clientValidConditions conds,
    updates := clientChangedUpdates primaryKeys updateValues originalValues,
    data := none }

/-- What the client does with an authorized UPDATE: post the standard body to
`/query`, post a cascade script to `/sql`, or refuse locally. -/
inductive ClientAction where
  | standard (body : QueryBody)
  | cascade (sql : String)
  | refuse (msg : String)
deriving DecidableEq

/-- The `updatedPKs` filter of `runQuery`:
`primaryKeys.includes(field) && originalValues[field] !== value`. -/
def updatedPkEntries (primaryKeys : List String)
    (updateValues originalValues : List (String × String)) : List (String × String) :=
  updateValues.filter (fun fv =>
    primaryKeys.contains fv.1 && !(originalValues.lookup fv.1 == some fv.2))

/-- The UPDATE branch of the client's `runQuery` (lines 654-783): no edited
primary key means the standard path; an edited primary key with
`updateReferences` enabled scans for referencing tables and either posts the
interpolated cascade script (some found) or falls back to the standard path
(none found); without `updateReferences` the request is refused locally. -/
def clientRunUpdate (schema : List TableSchema) (selectedTable : String)
    (updateValues originalValues : List (String × String)) (conds : List Condition)
    (updateReferences : Bool) : ClientAction :=
  match schema.find? (fun s => s.name == selectedTable) with
  | none => .refuse "Table schema not found"
  | some ts =>
    let updatedPKs := updatedPkEntries ts.primaryKeys updateValues originalValues
    if updatedPKs.isEmpty then
      .standard (buildClientUpdateBody schema selectedTable updateValues originalValues conds)
    else if updateReferences then
      let refs := referencingTablesFor schema selectedTable (updatedPKs.map (fun fv => fv.1))
      if refs.isEmpty then
        .standard (buildClientUpdateBody schema selectedTable updateValues originalValues conds)
      else
        .cascade (cascadeSql selectedTable refs
          (updatedPKs.map (fun fv =>
            ⟨fv.1, (originalValues.lookup fv.1).getD "", fv.2⟩)) conds)
    else
      .refuse "Updating primary keys without updating references can break data integrity. Please enable the cascade updates option."

/-! ## Concrete fixtures used by the scenario claims -/

/-- Columns flagged auto-generated in a table: `extra.includes('auto_increment')`,
the check the client uses for `isFieldDisabled` and required-field logic. -/
def autoGeneratedColumns (t : TableSchema) : List String :=
  (t.columns.filter (fun c => jsIncludes c.extra "auto_increment")).map (fun c => c.name)

/-- The Employee table of Scenario A: `EmpID` is an auto-generated primary
key and `SupervisorID` a self-referencing foreign key to `Employee.EmpID`. -/
def employeeTable : TableSchema :=
  { name := "Employee",
    columns := [⟨"EmpID", "int", none, false, none, "auto_increment"⟩,
                ⟨"SupervisorID", "int", none, true, none, ""⟩,
                ⟨"FName", "varchar", some "50", false, none, ""⟩,
                ⟨"LName", "varchar", some "50", false, none, ""⟩],
    primaryKeys := ["EmpID"],
    relationships := [⟨"Employee", "SupervisorID", "EmpID"⟩],
    dependsOn := ["Employee"], isIndependentTable := false, supportsInsert := true }

/-- A schema set containing only the self-referencing Employee table. -/
def employeeSchemaList : List TableSchema := [employeeTable]

/-- The Department table of Scenario B. -/
def departmentTable : TableSchema :=
  { name := "Department",
    columns := [⟨"DeptID", "int", none, false, none, "auto_increment"⟩,
                ⟨"DeptName", "varchar", some "50", false, none, ""⟩],
    primaryKeys := ["DeptID"], relationships := [],
    dependsOn := [], isIndependentTable := true, supportsInsert := true }

/-- The Job_Position table of Scenario B, holding a foreign key
`Job_Position.DeptID → Department.DeptID`. -/
def jobPositionTable : TableSchema :=
  { name := "Job_Position",
    columns := [⟨"PositionID", "int", none, false, none, "auto_increment"⟩,
                ⟨"DeptID", "int", none, false, none, ""⟩],
    primaryKeys := ["PositionID"],
    relationships := [⟨"Department", "DeptID", "DeptID"⟩],
    dependsOn := ["Department"], isIndependentTable := false, supportsInsert := true }

/-- Schema set with Department referenced by Job_Position. -/
def departmentSchemaList : List TableSchema := [departmentTable, jobPositionTable]

/-- The body the client builds for the Scenario A request: UPDATE Employee
changing `EmpID` from 7 to 70, WHERE `EmpID = 7`, cascade authorized. -/
def empUpdateBody : QueryBody :=
  buildClientUpdateBody employeeSchemaList "Employee"
    [("EmpID", "70")] [("EmpID", "7")] [⟨"EmpID", "=", "7"⟩]

/-! ## Claim theorems -/

/-- C1: Scenario A fails on the code. For the self-referencing schema
`Employee(EmpID PK, SupervisorID FK→Employee.EmpID)`, a cascade-authorized
update of `EmpID` 7→70 is required by the claim to rewrite every
`SupervisorID = 7` row and then the Employee row, atomically. The cascade
scan skips the selected table itself, so the self-referencing edge yields no
referencing target, the client falls back to the standard path whose
`buildQuery` strips the primary-key column from the update set, and the
server then refuses the whole request with the primary-key 400: no
`SupervisorID` row and no Employee row is ever updated. -/
theorem c1_selfReferencingCascadeSkipped :
    referencingTablesFor employeeSchemaList "Employee" ["EmpID"] = [] ∧
    clientRunUpdate employeeSchemaList "Employee"
        [("EmpID", "70")] [("EmpID", "7")] [⟨"EmpID", "=", "7"⟩] true =
      ClientAction.standard empUpdateBody ∧
    empUpdateBody.updates = [] ∧
    runQueryHandler ["EmpID"] empUpdateBody =
      QueryOutcome.badRequest (pkRefusalMessage ["EmpID"]) := by
  decide

/-- C5: the cascade path violates the bound-parameter property. For the
Department/Job_Position schema, an authorized primary-key cascade posts a
script whose statement text has the caller's values spliced in as quoted
literals: the text contains the new value `30`, and changing only that value
to `31` changes the statement text — refuting that the statement text is
identical for any two requests differing only in their values. -/
theorem c5_cascadeSqlInterpolatesValues :
    clientRunUpdate departmentSchemaList "Department"
        [("DeptID", "30")] [("DeptID", "3")] [⟨"DeptID", "=", "3"⟩] true =
      ClientAction.cascade (cascadeSql "Department"
        [⟨"Job_Position", "DeptID", "DeptID"⟩] [⟨"DeptID", "3", "30"⟩]
        [⟨"DeptID", "=", "3"⟩]) ∧
    jsIncludes (cascadeSql "Department" [⟨"Job_Position", "DeptID", "DeptID"⟩]
        [⟨"DeptID", "3", "30"⟩] [⟨"DeptID", "=", "3"⟩]) "30" = true ∧
    cascadeSql "Department" [⟨"Job_Position", "DeptID", "DeptID"⟩]
        [⟨"DeptID", "3", "30"⟩] [⟨"DeptID", "=", "3"⟩] ≠
      cascadeSql "Department" [⟨"Job_Position", "DeptID", "DeptID"⟩]
        [⟨"DeptID", "3", "31"⟩] [⟨"DeptID", "=", "3"⟩] := by
  decide

/-- C2: compiling an UPDATE request never produces a plan whose update set
contains a primary-key column of the target table, and when dropping the
primary-key columns empties the update set the handler answers with the
distinguishable 400 primary-key refusal instead of a plan, so no update
reaches the engine. -/
theorem c2_updatePlanNeverTouchesPrimaryKeys (pkCols : List String) (b : QueryBody)
    (hop : b.operation = "UPDATE") :
    (∀ p, runQueryHandler pkCols b = QueryOutcome.plan p →
      ∀ cv ∈ planUpdateSets p, cv.1 ∉ pkCols) ∧
    (safeUpdatesOf pkCols b.updates = [] →
      b.table ≠ "" → b.joins.find? (fun j => !(validJoin j)) = none →
      runQueryHandler pkCols b = QueryOutcome.badRequest (pkRefusalMessage pkCols)) := by
  constructor
  · intro p hp cv hcv
    unfold runQueryHandler at hp
    rw [hop] at hp
    split at hp
    · exact absurd hp (by simp)
    · split at hp
      · exact absurd hp (by simp)
      · rw [if_neg (by decide), if_neg (by decide), if_pos rfl] at hp
        split at hp
        · exact absurd hp (by simp)
        · split at hp
          · exact absurd hp (by simp)
          · split at hp
            · exact absurd hp (by simp)
            · injection hp with h
              subst h
              simp only [planUpdateSets] at hcv
              rw [safeUpdatesOf, List.mem_filter] at hcv
              simpa using hcv.2
  · intro hempty htable hjoins
    unfold runQueryHandler
    rw [hop, if_neg htable]
    simp only [hjoins]
    rw [if_neg (by decide), if_neg (by decide), if_pos (by trivial), if_pos (by simp [hempty])]

/-- C2 witness: an UPDATE naming only the primary-key column `EmpID` is
answered with the 400 primary-key refusal. -/
theorem c2_witness :
    runQueryHandler ["EmpID"]
      { operation := "UPDATE", table := "Employee", fields := [], joins := [],
        conditions := [⟨"EmpID", "=", "7"⟩], updates := [("EmpID", "70")], data := none } =
      QueryOutcome.badRequest (pkRefusalMessage ["EmpID"]) :=
  (c2_updatePlanNeverTouchesPrimaryKeys ["EmpID"]
    { operation := "UPDATE", table := "Employee", fields := [], joins := [],
      conditions := [⟨"EmpID", "=", "7"⟩], updates := [("EmpID", "70")], data := none }
    rfl).2 (by decide) (by decide) rfl

/-- C9: the primary-key refusal takes precedence over every other UPDATE
validation: whenever the update set is empty after dropping primary-key
columns — including an empty `updates` object, whatever `conditions` is —
the outcome is the 400 refusal; and the two thrown UPDATE errors (no column
values / missing WHERE) can only occur when at least one non-primary-key
column survives in the update set. -/
theorem c9_pkRefusalPrecedesOtherUpdateChecks (pkCols : List String) (b : QueryBody)
    (hop : b.operation = "UPDATE") (htable : b.table ≠ "")
    (hjoins : b.joins.find? (fun j => !(validJoin j)) = none) :
    (safeUpdatesOf pkCols b.updates = [] →
      runQueryHandler pkCols b = QueryOutcome.badRequest (pkRefusalMessage pkCols)) ∧
    (∀ msg, runQueryHandler pkCols b = QueryOutcome.serverError msg →
      (msg = "No column values supplied for UPDATE" ∨
       msg = "Refusing to UPDATE without WHERE clause") →
      ∃ cv ∈ b.updates, cv.1 ∉ pkCols) := by
  constructor
  · intro hempty
    unfold runQueryHandler
    rw [hop, if_neg htable]
    simp only [hjoins]
    rw [if_neg (by decide), if_neg (by decide), if_pos (by trivial), if_pos (by simp [hempty])]
  · intro msg hmsg _
    unfold runQueryHandler at hmsg
    rw [hop, if_neg htable] at hmsg
    simp only [hjoins] at hmsg
    rw [if_neg (by decide), if_neg (by decide), if_pos (by trivial)] at hmsg
    split at hmsg
    · exact absurd hmsg (by simp)
    · rename_i hne
      have hsafe : safeUpdatesOf pkCols b.updates ≠ [] := by
        simpa [List.isEmpty_iff] using hne
      obtain ⟨cv, hcv⟩ := List.exists_mem_of_ne_nil _ hsafe
      rw [safeUpdatesOf, List.mem_filter] at hcv
      exact ⟨cv, hcv.1, by simpa using hcv.2⟩

/-- C9 witness: an UPDATE with an empty `updates` object and empty
`conditions` gets the 400 primary-key refusal, not the other errors. -/
theorem c9_witness :
    runQueryHandler ["EmpID"]
      { operation := "UPDATE", table := "Employee", fields := [], joins := [],
        conditions := [], updates := [], data := none } =
      QueryOutcome.badRequest (pkRefusalMessage ["EmpID"]) :=
  (c9_pkRefusalPrecedesOtherUpdateChecks ["EmpID"]
    { operation := "UPDATE", table := "Employee", fields := [], joins := [],
      conditions := [], updates := [], data := none }
    rfl (by decide) rfl).1 rfl

/-- C10: implicit `%` wildcard wrapping of `LIKE` values happens only when
compiling a SELECT; a plan compiled from an UPDATE or DELETE binds every
condition value unmodified (`rawBind`), so a `LIKE` condition there matches
only the literal pattern supplied. -/
theorem c10_likeWildcardOnlyOnSelect (pkCols : List String) (b : QueryBody) (p : Plan)
    (hp : runQueryHandler pkCols b = QueryOutcome.plan p) :
    (b.operation = "SELECT" → planWheres p = some (b.conditions.map selectBind)) ∧
    (b.operation = "UPDATE" ∨ b.operation = "DELETE" →
      planWheres p = some (b.conditions.map rawBind)) := by
  unfold runQueryHandler at hp
  split at hp
  · exact absurd hp (by simp)
  · split at hp
    · exact absurd hp (by simp)
    · split at hp
      · rename_i hsel
        injection hp with h
        subst h
        refine ⟨fun _ => by simp [planWheres], fun hor => ?_⟩
        rcases hor with h1 | h1 <;> rw [hsel] at h1 <;> exact absurd h1 (by decide)
      · rename_i hnsel
        split at hp
        · rename_i hins
          split at hp
          · exact absurd hp (by simp)
          · injection hp with h
            subst h
            refine ⟨fun hs => absurd hs hnsel, fun hor => ?_⟩
            rcases hor with h1 | h1 <;> rw [hins] at h1 <;> exact absurd h1 (by decide)
        · split at hp
          · split at hp
            · exact absurd hp (by simp)
            · split at hp
              · exact absurd hp (by simp)
              · split at hp
                · exact absurd hp (by simp)
                · injection hp with h
                  subst h
                  exact ⟨fun hs => absurd hs hnsel, fun _ => by simp [planWheres]⟩
          · split at hp
            · split at hp
              · exact absurd hp (by simp)
              · injection hp with h
                subst h
                exact ⟨fun hs => absurd hs hnsel, fun _ => by simp [planWheres]⟩
            · exact absurd hp (by simp)

/-- C10 witness: a DELETE whose condition uses `LIKE` with value `Co` is
compiled with the bare value `Co` bound — no wildcard wrapping. -/
theorem c10_witness :
    planWheres ⟨"Employee", [], PlanAction.deleteRows [("LName", "LIKE", "Co")]⟩ =
      some [("LName", "LIKE", "Co")] :=
  (c10_likeWildcardOnlyOnSelect []
    { operation := "DELETE", table := "Employee", fields := [], joins := [],
      conditions := [⟨"LName", "LIKE", "Co"⟩], updates := [], data := none }
    ⟨"Employee", [], PlanAction.deleteRows [("LName", "LIKE", "Co")]⟩
    (by decide)).2 (Or.inr rfl)

/-- C4 counterexample: an UPDATE with empty `conditions` whose update set is
empty after primary-key stripping (here: an empty `updates` object) is NOT
answered with the missing-WHERE-clause error the claim requires — the
primary-key refusal fires first. -/
theorem c4_counterexample :
    runQueryHandler ["EmpID"]
      { operation := "UPDATE", table := "Employee", fields := [], joins := [],
        conditions := [], updates := [], data := none } =
      QueryOutcome.badRequest (pkRefusalMessage ["EmpID"]) ∧
    runQueryHandler ["EmpID"]
      { operation := "UPDATE", table := "Employee", fields := [], joins := [],
        conditions := [], updates := [], data := none } ≠
      QueryOutcome.serverError "Refusing to UPDATE without WHERE clause" := by
  decide

/-- C4 as amended: an UPDATE or DELETE with empty `conditions` never yields a
plan, so no write statement reaches the engine; the missing-WHERE error is
the outcome for every DELETE, and for an UPDATE whose update set still has a
non-primary-key column — an UPDATE whose stripped update set is empty gets
the primary-key refusal instead. -/
theorem c4_missingWhereRejection (pkCols : List String) (b : QueryBody)
    (hop : b.operation = "UPDATE" ∨ b.operation = "DELETE")
    (hconds : b.conditions = []) :
    (∀ p, runQueryHandler pkCols b ≠ QueryOutcome.plan p) ∧
    (b.table ≠ "" → b.joins.find? (fun j => !(validJoin j)) = none →
      (b.operation = "DELETE" →
        runQueryHandler pkCols b =
          QueryOutcome.serverError "Refusing to DELETE without WHERE clause") ∧
      (b.operation = "UPDATE" → safeUpdatesOf pkCols b.updates ≠ [] →
        runQueryHandler pkCols b =
          QueryOutcome.serverError "Refusing to UPDATE without WHERE clause")) := by
  constructor
  · intro p hp
    unfold runQueryHandler at hp
    split at hp
    · exact absurd hp (by simp)
    · split at hp
      · exact absurd hp (by simp)
      · split at hp
        · rename_i hsel
          rcases hop with h1 | h1 <;> rw [h1] at hsel <;> exact absurd hsel (by decide)
        · split at hp
          · rename_i hins
            rcases hop with h1 | h1 <;> rw [h1] at hins <;> exact absurd hins (by decide)
          · split at hp
            · split at hp
              · exact absurd hp (by simp)
              · split at hp
                · exact absurd hp (by simp)
                · split at hp
                  · exact absurd hp (by simp)
                  · rename_i hcne
                    exact hcne (by simp [hconds])
            · split at hp
              · split at hp
                · exact absurd hp (by simp)
                · rename_i hcne
                  exact hcne (by simp [hconds])
              · exact absurd hp (by simp)
  · intro htable hjoins
    constructor
    · intro hdel
      unfold runQueryHandler
      rw [hdel, if_neg htable]
      simp only [hjoins]
      rw [if_neg (by decide), if_neg (by decide), if_neg (by decide), if_pos (by trivial),
        if_pos (by simp [hconds])]
    · intro hupd hsafe
      unfold runQueryHandler
      rw [hupd, if_neg htable]
      simp only [hjoins]
      rw [if_neg (by decide), if_neg (by decide), if_pos (by trivial),
        if_neg (by simp [List.isEmpty_iff, hsafe]), if_neg (by
          intro hemp
          exact hsafe (by simp [safeUpdatesOf, List.isEmpty_iff.mp hemp])),
        if_pos (by simp [hconds])]

/-- C4 witness: a DELETE with empty conditions is rejected with the
missing-WHERE error and produces no plan. -/
theorem c4_witness :
    runQueryHandler []
      { operation := "DELETE", table := "Department", fields := [], joins := [],
        conditions := [], updates := [], data := none } =
      QueryOutcome.serverError "Refusing to DELETE without WHERE clause" :=
  ((c4_missingWhereRejection []
    { operation := "DELETE", table := "Department", fields := [], joins := [],
      conditions := [], updates := [], data := none }
    (Or.inr rfl) rfl).2 (by decide) rfl).1 rfl

/-- C3 counterexample: the INSERT case strips nothing. An INSERT into
Employee that supplies a value for the auto-generated primary key `EmpID`
is compiled with that value still in the payload — the supplied key is
passed to the engine, not silently ignored. -/
theorem c3_counterexample :
    runQueryHandler ["EmpID"]
      { operation := "INSERT", table := "Employee", fields := [], joins := [],
        conditions := [], updates := [],
        data := some [("EmpID", "7"), ("FName", "Ann")] } =
      QueryOutcome.plan ⟨"Employee", [],
        PlanAction.insertRow [("EmpID", "7"), ("FName", "Ann")]⟩ ∧
    autoGeneratedColumns employeeTable = ["EmpID"] := by
  decide

/-- C3 as amended: the INSERT case performs no auto-generated-field
stripping. The payload — `data`, or the field/value pairs of `conditions`
when `data` is absent — is passed to the insert verbatim, a supplied value
for an auto-generated key included; the request fails with the
empty-payload error exactly when that payload is empty. -/
theorem c3_insertPayloadVerbatim (pkCols : List String) (b : QueryBody)
    (hop : b.operation = "INSERT") (htable : b.table ≠ "")
    (hjoins : b.joins.find? (fun j => !(validJoin j)) = none) :
    (insertPayloadOf b = [] →
      runQueryHandler pkCols b = QueryOutcome.serverError "No values supplied for INSERT") ∧
    (insertPayloadOf b ≠ [] →
      runQueryHandler pkCols b =
        QueryOutcome.plan ⟨b.table, b.joins, PlanAction.insertRow (insertPayloadOf b)⟩) := by
  constructor
  · intro hemp
    unfold runQueryHandler
    rw [hop, if_neg htable]
    simp only [hjoins]
    rw [if_neg (by decide), if_pos (by trivial), if_pos (by simp [hemp])]
  · intro hne
    unfold runQueryHandler
    rw [hop, if_neg htable]
    simp only [hjoins]
    rw [if_neg (by decide), if_pos (by trivial), if_neg (by simp [List.isEmpty_iff, hne])]

/-- C3 witness: the counterexample INSERT applied through the amended
theorem — the payload with the supplied `EmpID` value flows through
unchanged. -/
theorem c3_witness :
    runQueryHandler ["EmpID"]
      { operation := "INSERT", table := "Employee", fields := [], joins := [],
        conditions := [], updates := [],
        data := some [("EmpID", "7"), ("LName", "Cole")] } =
      QueryOutcome.plan ⟨"Employee", [],
        PlanAction.insertRow [("EmpID", "7"), ("LName", "Cole")]⟩ :=
  (c3_insertPayloadVerbatim ["EmpID"]
    { operation := "INSERT", table := "Employee", fields := [], joins := [],
      conditions := [], updates := [],
      data := some [("EmpID", "7"), ("LName", "Cole")] }
    rfl (by decide) rfl).2 (by decide)

/-- C6: when the engine raises a referential-integrity violation on a
DELETE (a matching row is still referenced), the handler answers with the
structured 409 conflict — never a raw 500 — whose `detail` carries the
engine's constraint message identifying the blocking reference, and the
table is left exactly as it was: no row is deleted. -/
theorem c6_deleteConflictIs409NotDeleting (referenced : Row → Bool) (fkMessage : String)
    (rows : List Row) (cond : Row → Bool)
    (h : (rows.filter cond).any referenced = true) :
    deleteRequestRun referenced fkMessage rows cond =
      (rows, { status := 409, error := "Delete blocked by foreign-key constraint",
               detail := some fkMessage, rowsAffected := none }) ∧
    (deleteRequestRun referenced fkMessage rows cond).2.status ≠ 500 := by
  have he : engineDelete referenced fkMessage rows cond =
      Except.error { code := "ER_ROW_IS_REFERENCED_2", message := fkMessage } := by
    simp [engineDelete, h]
  constructor
  · simp [deleteRequestRun, he, writeErrorResponse]
  · simp [deleteRequestRun, he, writeErrorResponse]

/-- C6 witness: Scenario B. Deleting `Department` row `DeptID = 3` while a
`Job_Position` row still references it yields the 409 conflict naming the
blocking reference, and the Department rows are unchanged. -/
theorem c6_witness :
    deleteRequestRun
      (fun r => r.lookup "DeptID" == some "3")
      "Cannot delete or update a parent row: a foreign key constraint fails (Job_Position, FOREIGN KEY (DeptID) REFERENCES Department (DeptID))"
      [[("DeptID", "3")], [("DeptID", "4")]]
      (fun r => r.lookup "DeptID" == some "3") =
      ([[("DeptID", "3")], [("DeptID", "4")]],
       { status := 409, error := "Delete blocked by foreign-key constraint",
         detail := some "Cannot delete or update a parent row: a foreign key constraint fails (Job_Position, FOREIGN KEY (DeptID) REFERENCES Department (DeptID))",
         rowsAffected := none }) :=
  (c6_deleteConflictIs409NotDeleting
    (fun r => r.lookup "DeptID" == some "3")
    "Cannot delete or update a parent row: a foreign key constraint fails (Job_Position, FOREIGN KEY (DeptID) REFERENCES Department (DeptID))"
    [[("DeptID", "3")], [("DeptID", "4")]]
    (fun r => r.lookup "DeptID" == some "3")
    (by decide)).1

/-- C7 counterexample: `describeSchema` can produce a `TableSchema` with
empty `primaryKeys`. A catalog row for a table with columns but no
`PRIMARY` constraint row yields `primaryKeys = []`, refuting the claim that
`primaryKeys` is non-empty for every produced schema. -/
theorem c7_counterexample :
    (describeSchema [⟨"Note", "NoteID:int:11:NO::", ""⟩] []).map
      (fun T => T.primaryKeys) = [[]] ∧
    (describeSchema [⟨"Note", "NoteID:int:11:NO::", ""⟩] []).map
      (fun T => T.columns.map (fun c => c.name)) = [["NoteID"]] := by
  decide

/-- C7 as amended: the endpoint copies the catalog's data through without
validation, so the invariant holds exactly when the catalog rows already
satisfy it: for a raw table row whose `PRIMARY` constraint lookup is
non-empty and lists only parsed column names, and whose foreign-key entries
name parsed columns, the produced `TableSchema` has non-empty `primaryKeys`
that are a subset of its column names, and every relationship's
`fromColumn` among its column names. A table with no `PRIMARY` row instead
yields empty `primaryKeys`. -/
theorem c7_schemaInvariantForConsistentCatalog (tables : List RawTableRow)
    (pkRows : List RawPkRow) (row : RawTableRow) (hrow : row ∈ tables)
    (hne : (pkMapLookup pkRows row.table_name).getD [] ≠ [])
    (hpk : ∀ k ∈ (pkMapLookup pkRows row.table_name).getD [], k ∈ rawColumnNames row)
    (hfk : ∀ e ∈ rawForeignKeys row, e.fromColumn ∈ rawColumnNames row) :
    buildTableSchema pkRows row ∈ describeSchema tables pkRows ∧
    (buildTableSchema pkRows row).primaryKeys ≠ [] ∧
    (∀ k ∈ (buildTableSchema pkRows row).primaryKeys,
      k ∈ (buildTableSchema pkRows row).columns.map (fun c => c.name)) ∧
    (∀ e ∈ (buildTableSchema pkRows row).relationships,
      e.fromColumn ∈ (buildTableSchema pkRows row).columns.map (fun c => c.name)) := by
  refine ⟨List.mem_map_of_mem _ hrow, ?_, ?_, ?_⟩
  · simpa [buildTableSchema] using hne
  · simpa [buildTableSchema, rawColumnNames] using hpk
  · simpa [buildTableSchema, rawColumnNames] using hfk

/-- C7 witness: a consistent Department catalog row produces a schema
satisfying the invariant. -/
theorem c7_witness :
    buildTableSchema [⟨"Department", "DeptID"⟩]
        ⟨"Department", "DeptID:int:11:NO::auto_increment,DeptName:varchar:50:NO::", ""⟩ ∈
      describeSchema [⟨"Department", "DeptID:int:11:NO::auto_increment,DeptName:varchar:50:NO::", ""⟩]
        [⟨"Department", "DeptID"⟩] ∧
    (buildTableSchema [⟨"Department", "DeptID"⟩]
        ⟨"Department", "DeptID:int:11:NO::auto_increment,DeptName:varchar:50:NO::", ""⟩).primaryKeys ≠ [] :=
  have h := c7_schemaInvariantForConsistentCatalog
    [⟨"Department", "DeptID:int:11:NO::auto_increment,DeptName:varchar:50:NO::", ""⟩]
    [⟨"Department", "DeptID"⟩]
    ⟨"Department", "DeptID:int:11:NO::auto_increment,DeptName:varchar:50:NO::", ""⟩
    (by decide) (by decide) (by decide) (by decide)
  ⟨h.1, h.2.1⟩

/-- C8 counterexample: the GET `/count` endpoint applies no condition check
at all — a count of `Sale_Line` with an empty conditions list returns the
full-table count (2 of 2 rows) instead of being rejected. -/
theorem c8_counterexample :
    getCountHandler (fun _ _ => false)
      [[("SaleID", "1"), ("ItemID", "2")], [("SaleID", "1"), ("ItemID", "3")]]
      "Sale_Line" [] = CountOutcome.ok 2 := by
  decide

/-- C8 as amended: the POST `/count` endpoint rejects a request whose
conditions contain no valid entry (field, operator and value all present)
with a 400 before any count is issued — the outcome does not depend on the
table's rows — while the GET convenience endpoint has no such check. -/
theorem c8_postCountRejectsEmptyConditions (rowMatch : Row → CountCond → Bool)
    (rows : List Row) (table : String) (conds : List CountCond)
    (htable : table ≠ "") (h : conds.filter validCountCond = []) :
    postCountHandler rowMatch rows table conds =
      CountOutcome.badRequest "No valid conditions supplied" ∧
    ∀ rows2, postCountHandler rowMatch rows table conds =
      postCountHandler rowMatch rows2 table conds := by
  constructor
  · simp [postCountHandler, htable, h]
  · intro rows2
    simp [postCountHandler, htable, h]

/-- C8 witness: Scenario E — a POST count of `Sale_Line` with no conditions
is rejected. -/
theorem c8_witness :
    postCountHandler (fun _ _ => true) [[("SaleID", "1")]] "Sale_Line" [] =
      CountOutcome.badRequest "No valid conditions supplied" :=
  (c8_postCountRejectsEmptyConditions (fun _ _ => true) [[("SaleID", "1")]]
    "Sale_Line" [] (by decide) rfl).1
